import Mathlib

/-!
Verification of the orbital dynamics engine of phoebe2
(`src/phoebe/dynamics/nbody.py`).

The numeric code is shallowly embedded over the real numbers: numpy
3-vectors become `Vec3`, `np.linalg.norm` becomes `norm3`, Python
exceptions become `Except` error values.  External libraries (rebound,
reboundx, scipy's root finder, the bundled photodynam binary) are not part
of the embedded source; they enter as explicitly injected parameters
(a deterministic trajectory for the integrator, a root-returning function
for `scipy.optimize.newton`, an uninterpreted function for
`photodynam.do_dynamics`), following the propagator contract the module
relies on (`integrate(t, exact_finish_time=True)` reaches exactly `t`,
and particle state is a function of the reached time).
-/

/-- A 3-vector of reals, the embedding of a numpy array of length 3. -/
structure Vec3 where
  x : ℝ
  y : ℝ
  z : ℝ

/-- `np.dot` for 3-vectors. -/
noncomputable def dot3 (a b : Vec3) : ℝ := a.x * b.x + a.y * b.y + a.z * b.z

/-- `np.cross` for 3-vectors. -/
noncomputable def cross3 (a b : Vec3) : Vec3 :=
  ⟨a.y * b.z - a.z * b.y, a.z * b.x - a.x * b.z, a.x * b.y - a.y * b.x⟩

/-- `np.linalg.norm` for 3-vectors. -/
noncomputable def norm3 (a : Vec3) : ℝ := Real.sqrt (a.x ^ 2 + a.y ^ 2 + a.z ^ 2)

/-- Scalar multiple of a 3-vector. -/
noncomputable def smul3 (c : ℝ) (a : Vec3) : Vec3 := ⟨c * a.x, c * a.y, c * a.z⟩

/-- Difference of two 3-vectors. -/
noncomputable def vsub3 (a b : Vec3) : Vec3 := ⟨a.x - b.x, a.y - b.y, a.z - b.z⟩

/-- The unit vector `[0, 0, 1]` used for the node-vector computation. -/
noncomputable def zhat : Vec3 := ⟨0, 0, 1⟩

/-- `mu = mass_tot * G` (`keplerian_from_cartesian`, nbody.py line 81). -/
noncomputable def muOf (mass_tot G : ℝ) : ℝ := mass_tot * G

/-- Eccentricity vector
`e_v = ((v**2 - mu/r) * r_v - np.dot(r_v, v_v) * v_v) / mu`
(nbody.py line 89). -/
noncomputable def eVecOf (r_v v_v : Vec3) (mu : ℝ) : Vec3 :=
  smul3 (1 / mu)
    (vsub3 (smul3 (norm3 v_v ^ 2 - mu / norm3 r_v) r_v) (smul3 (dot3 r_v v_v) v_v))

/-- Eccentricity `e = np.linalg.norm(e_v)` (nbody.py line 90). -/
noncomputable def eccOf (r_v v_v : Vec3) (mu : ℝ) : ℝ := norm3 (eVecOf r_v v_v mu)

/-- Node vector `n_v = np.cross([0, 0, 1], h_v)` (nbody.py line 86). -/
noncomputable def nVecOf (r_v v_v : Vec3) : Vec3 := cross3 zhat (cross3 r_v v_v)

/-- Inclination `incl = np.arccos(h_v[2] / h)` (nbody.py line 100). -/
noncomputable def inclOf (r_v v_v : Vec3) : ℝ :=
  Real.arccos ((cross3 r_v v_v).z / norm3 (cross3 r_v v_v))

/-- Semi-major axis from the specific orbital energy:
`E = v**2 / 2 - mu / r; a = -mu / (2 * E)` (nbody.py lines 97-98). -/
noncomputable def smaOf (r_v v_v : Vec3) (mu : ℝ) : ℝ :=
  -mu / (2 * (norm3 v_v ^ 2 / 2 - mu / norm3 r_v))

/-- Longitude of the ascending node (nbody.py lines 102-117): zero in the
planar branch (`abs(incl) < 1e-12`); otherwise the quadrant-corrected
arccos of the node vector's x-component plus the fixed `+ np.pi` offset. -/
noncomputable def longAnOf (r_v v_v : Vec3) : ℝ :=
  if |inclOf r_v v_v| < 1e-12 then 0
  else
    (if (nVecOf r_v v_v).y < 0 then
        2 * Real.pi - Real.arccos ((nVecOf r_v v_v).x / norm3 (nVecOf r_v v_v))
      else Real.arccos ((nVecOf r_v v_v).x / norm3 (nVecOf r_v v_v))) + Real.pi

/-- Argument of periastron as first assigned inside the inclination branch
(nbody.py lines 102-122), before the later `e_v[2] < 0` adjustment:
`per0 = 0` when `e == 0.` exactly, else `arccos(e_v[0]/e)` in the planar
branch and `arccos(np.dot(n_v, e_v) / (n * e))` otherwise. -/
noncomputable def per0Raw (r_v v_v : Vec3) (mu : ℝ) : ℝ :=
  if |inclOf r_v v_v| < 1e-12 then
    if eccOf r_v v_v mu = 0 then 0
    else Real.arccos ((eVecOf r_v v_v mu).x / eccOf r_v v_v mu)
  else
    if eccOf r_v v_v mu = 0 then 0
    else
      Real.arccos
        (dot3 (nVecOf r_v v_v) (eVecOf r_v v_v mu) /
          (norm3 (nVecOf r_v v_v) * eccOf r_v v_v mu))

/-- Final argument of periastron (nbody.py lines 125-143): the
`if e_v[2] < 0 and e > 0.: per0 = 2*np.pi - per0` adjustment is executed
only in the `else` of `if e < 1e-6`. -/
noncomputable def per0Of (r_v v_v : Vec3) (mu : ℝ) : ℝ :=
  if eccOf r_v v_v mu < 1e-6 then per0Raw r_v v_v mu
  else
    if (eVecOf r_v v_v mu).z < 0 ∧ 0 < eccOf r_v v_v mu then
      2 * Real.pi - per0Raw r_v v_v mu
    else per0Raw r_v v_v mu

/-- True anomaly (nbody.py lines 125-143): for `e < 1e-6` it is derived
from the position's x-component (planar) or from the node vector,
otherwise from the eccentricity vector, each quadrant-corrected. -/
noncomputable def trueAnomOf (r_v v_v : Vec3) (mu : ℝ) : ℝ :=
  if eccOf r_v v_v mu < 1e-6 then
    if |inclOf r_v v_v| < 1e-12 then
      if 0 < v_v.x then 2 * Real.pi - Real.arccos (r_v.x / norm3 r_v)
      else Real.arccos (r_v.x / norm3 r_v)
    else
      if 0 < dot3 (nVecOf r_v v_v) v_v then
        2 * Real.pi -
          Real.arccos (dot3 (nVecOf r_v v_v) r_v / (norm3 (nVecOf r_v v_v) * norm3 r_v))
      else Real.arccos (dot3 (nVecOf r_v v_v) r_v / (norm3 (nVecOf r_v v_v) * norm3 r_v))
  else
    if dot3 r_v v_v < 0 then
      2 * Real.pi -
        Real.arccos (dot3 (eVecOf r_v v_v mu) r_v / (eccOf r_v v_v mu * norm3 r_v))
    else Real.arccos (dot3 (eVecOf r_v v_v mu) r_v / (eccOf r_v v_v mu * norm3 r_v))

/-- Orbital period from Kepler's third law,
`period = ((4 * np.pi**2 * a**3)/(mass_tot * G))**0.5` (nbody.py line 147). -/
noncomputable def periodOf (r_v v_v : Vec3) (mass_tot G : ℝ) : ℝ :=
  Real.sqrt ((4 * Real.pi ^ 2 * smaOf r_v v_v (muOf mass_tot G) ^ 3) / (mass_tot * G))

/-- `mean_anom = true_anom - e * np.sin(true_anom)` (nbody.py line 150):
the source plugs the TRUE anomaly directly into the Kepler-equation form. -/
noncomputable def meanAnomOf (r_v v_v : Vec3) (mu : ℝ) : ℝ :=
  trueAnomOf r_v v_v mu - eccOf r_v v_v mu * Real.sin (trueAnomOf r_v v_v mu)

/-- `t0_perpass = t0 - (mean_anom * period) / (2*np.pi)` (nbody.py line 151). -/
noncomputable def t0PerpassOf (r_v v_v : Vec3) (mass_tot t0 G : ℝ) : ℝ :=
  t0 - meanAnomOf r_v v_v (muOf mass_tot G) * periodOf r_v v_v mass_tot G / (2 * Real.pi)

/-- The element tuple returned by `keplerian_from_cartesian`
(nbody.py line 155). -/
structure KeplerOut where
  sma : ℝ
  ecc : ℝ
  period : ℝ
  incl : ℝ
  per0 : ℝ
  long_an : ℝ
  true_anom : ℝ
  mean_anom : ℝ
  t0_perpass : ℝ

/-- Error raised by the element conversion; the spec's `InvalidOrbitError`
corresponds to the source's `raise NotImplementedError("ecc cannot be >= 1")`
(nbody.py line 92). -/
inductive OrbitError where
  | invalidOrbit

/-- `keplerian_from_cartesian(positions, velocities, mass_tot, t0, G)`
(nbody.py lines 64-155): rejects derived eccentricity `>= 1`, otherwise
returns the element tuple assembled from the definitions above. -/
noncomputable def keplerian_from_cartesian (r_v v_v : Vec3) (mass_tot t0 G : ℝ) :
    Except OrbitError KeplerOut :=
  if 1 ≤ eccOf r_v v_v (muOf mass_tot G) then Except.error OrbitError.invalidOrbit
  else
    Except.ok
      ⟨smaOf r_v v_v (muOf mass_tot G), eccOf r_v v_v (muOf mass_tot G),
        periodOf r_v v_v mass_tot G, inclOf r_v v_v, per0Of r_v v_v (muOf mass_tot G),
        longAnOf r_v v_v, trueAnomOf r_v v_v (muOf mass_tot G),
        meanAnomOf r_v v_v (muOf mass_tot G), t0PerpassOf r_v v_v mass_tot t0 G⟩

/-- Helper: a concrete 3-vector norm evaluates to `t` when the sum of the
squared components is `t ^ 2` with `t` nonnegative. -/
theorem norm3_eq (a : Vec3) (t : ℝ) (ht : 0 ≤ t) (hc : a.x ^ 2 + a.y ^ 2 + a.z ^ 2 = t ^ 2) :
    norm3 a = t := by
  rw [norm3, hc, Real.sqrt_sq ht]

/-- Helper: the square of a 3-vector norm is the sum of squared components. -/
theorem norm3_sq (a : Vec3) : norm3 a ^ 2 = a.x ^ 2 + a.y ^ 2 + a.z ^ 2 := by
  rw [norm3, Real.sq_sqrt (by positivity)]

/-- C4: `keplerian_from_cartesian` fails with the invalid-orbit error
whenever the derived eccentricity-vector magnitude is at least 1, and for
such inputs no orbital elements are returned (the result is the error
value, not an `Except.ok` element tuple). -/
theorem c4_hyperbolic_rejected (r_v v_v : Vec3) (mass_tot t0 G : ℝ)
    (h : 1 ≤ eccOf r_v v_v (muOf mass_tot G)) :
    keplerian_from_cartesian r_v v_v mass_tot t0 G =
      Except.error OrbitError.invalidOrbit := by
  rw [keplerian_from_cartesian, if_pos h]

/-- Witness for C4 at the concrete hyperbolic state
`positions = (1,0,0)`, `velocities = (0,2,0)`, `mass_tot = 1`, `G = 1`,
whose derived eccentricity vector is `(3,0,0)` with magnitude `3 ≥ 1`. -/
theorem c4_hyperbolic_rejected_witness :
    1 ≤ eccOf ⟨1, 0, 0⟩ ⟨0, 2, 0⟩ (muOf 1 1) ∧
      keplerian_from_cartesian ⟨1, 0, 0⟩ ⟨0, 2, 0⟩ 1 0 1 =
        Except.error OrbitError.invalidOrbit := by
  have hr : norm3 ⟨1, 0, 0⟩ = 1 := norm3_eq _ _ (by norm_num) (by norm_num)
  have hv2 : norm3 (⟨0, 2, 0⟩ : Vec3) ^ 2 = 4 := by
    rw [norm3_sq]; norm_num
  have hdot : dot3 ⟨1, 0, 0⟩ ⟨0, 2, 0⟩ = 0 := by
    simp [dot3]
  have hev : eVecOf ⟨1, 0, 0⟩ ⟨0, 2, 0⟩ (muOf 1 1) = ⟨3, 0, 0⟩ := by
    rw [eVecOf, hr, hv2, hdot, muOf]
    simp [smul3, vsub3]
    norm_num
  have hecc : eccOf ⟨1, 0, 0⟩ ⟨0, 2, 0⟩ (muOf 1 1) = 3 := by
    rw [eccOf, hev]
    exact norm3_eq _ _ (by norm_num) (by norm_num)
  have h1 : 1 ≤ eccOf ⟨1, 0, 0⟩ ⟨0, 2, 0⟩ (muOf 1 1) := by rw [hecc]; norm_num
  exact ⟨h1, c4_hyperbolic_rejected ⟨1, 0, 0⟩ ⟨0, 2, 0⟩ 1 0 1 h1⟩

/-- Concrete state used for C1: position `(1,0,0)`. -/
noncomputable def rIn1 : Vec3 := ⟨1, 0, 0⟩

/-- Concrete state used for C1: velocity `(1,2,0)`. -/
noncomputable def vIn1 : Vec3 := ⟨1, 2, 0⟩

/-- The element tuple `keplerian_from_cartesian` returns at
`(rIn1, vIn1, mass_tot = 4, t0 = 0, G = 1)`: eccentricity `1/2`,
true anomaly `π/2`, mean anomaly `π/2 - 1/2`. -/
noncomputable def kfcOut1 : KeplerOut :=
  ⟨4 / 3, 1 / 2, periodOf rIn1 vIn1 4 1, 0, Real.pi / 2, 0, Real.pi / 2,
    Real.pi / 2 - 1 / 2, t0PerpassOf rIn1 vIn1 4 0 1⟩

/-- Evaluation of the converter at the C1 state. -/
theorem kfc_eval_in1 : keplerian_from_cartesian rIn1 vIn1 4 0 1 = Except.ok kfcOut1 := by
  have hr : norm3 rIn1 = 1 := norm3_eq _ _ (by norm_num) (by norm_num [rIn1])
  have hv2 : norm3 vIn1 ^ 2 = 5 := by rw [norm3_sq]; norm_num [vIn1]
  have hdot : dot3 rIn1 vIn1 = 1 := by norm_num [dot3, rIn1, vIn1]
  have hev : eVecOf rIn1 vIn1 (muOf 4 1) = ⟨0, -(1 / 2), 0⟩ := by
    rw [eVecOf, muOf, hr, hv2, hdot]
    simp only [smul3, vsub3, rIn1, vIn1]
    norm_num
  have hecc : eccOf rIn1 vIn1 (muOf 4 1) = 1 / 2 := by
    rw [eccOf, hev]
    exact norm3_eq _ _ (by norm_num) (by norm_num)
  have hh : cross3 rIn1 vIn1 = ⟨0, 0, 2⟩ := by
    simp only [cross3, rIn1, vIn1]
    norm_num
  have hincl : inclOf rIn1 vIn1 = 0 := by
    rw [inclOf, hh, norm3_eq ⟨0, 0, 2⟩ 2 (by norm_num) (by norm_num)]
    norm_num [Real.arccos_one]
  have hper0raw : per0Raw rIn1 vIn1 (muOf 4 1) = Real.pi / 2 := by
    rw [per0Raw, hincl, hecc, hev]
    rw [if_pos (by norm_num), if_neg (by norm_num)]
    norm_num [Real.arccos_zero]
  have hper0 : per0Of rIn1 vIn1 (muOf 4 1) = Real.pi / 2 := by
    rw [per0Of, hecc, hev, hper0raw]
    rw [if_neg (by norm_num), if_neg (by norm_num)]
  have hlong : longAnOf rIn1 vIn1 = 0 := by
    rw [longAnOf, hincl, if_pos (by norm_num)]
  have htrue : trueAnomOf rIn1 vIn1 (muOf 4 1) = Real.pi / 2 := by
    rw [trueAnomOf, hecc, hev, hdot, hr]
    rw [if_neg (by norm_num), if_neg (by norm_num)]
    have hd : dot3 ⟨0, -(1 / 2), 0⟩ rIn1 = 0 := by norm_num [dot3, rIn1]
    rw [hd]
    norm_num [Real.arccos_zero]
  have hmean : meanAnomOf rIn1 vIn1 (muOf 4 1) = Real.pi / 2 - 1 / 2 := by
    rw [meanAnomOf, htrue, hecc, Real.sin_pi_div_two]
    ring
  have hsma : smaOf rIn1 vIn1 (muOf 4 1) = 4 / 3 := by
    rw [smaOf, muOf, hv2, hr]
    norm_num
  rw [keplerian_from_cartesian, if_neg (by rw [hecc]; norm_num)]
  rw [kfcOut1, hsma, hecc, hincl, hper0, hlong, htrue, hmean]

/-- Modelled from the spec: the eccentric anomaly corresponding to a true
anomaly `nu ∈ [0, 2π)` and eccentricity `e ∈ [0, 1)`, via
`cos E = (e + cos nu)/(1 + e cos nu)` with the branch matching `nu`'s
half-plane.  Used only to state the claimed relation
`M = E_anom - e*sin(E_anom)`. -/
noncomputable def specEccAnomOfTrue (e nu : ℝ) : ℝ :=
  if nu ≤ Real.pi then Real.arccos ((e + Real.cos nu) / (1 + e * Real.cos nu))
  else 2 * Real.pi - Real.arccos ((e + Real.cos nu) / (1 + e * Real.cos nu))

/-- The eccentric anomaly for `e = 1/2`, `nu = π/2` is `π/3`. -/
theorem specEccAnom_half_pi_div_two : specEccAnomOfTrue (1 / 2) (Real.pi / 2) = Real.pi / 3 := by
  rw [specEccAnomOfTrue, if_pos (by linarith [Real.pi_pos])]
  have hq : (1 / 2 + Real.cos (Real.pi / 2)) / (1 + 1 / 2 * Real.cos (Real.pi / 2)) =
      (1 : ℝ) / 2 := by
    rw [Real.cos_pi_div_two]; norm_num
  rw [hq, show (1 / 2 : ℝ) = Real.cos (Real.pi / 3) from Real.cos_pi_div_three.symm]
  exact Real.arccos_cos (by positivity) (by linarith [Real.pi_pos])

/-- C1 as stated: at every accepted input the returned mean anomaly equals
`E_anom - e*sin(E_anom)` for the eccentric anomaly `E_anom` of the returned
true anomaly, and the returned epoch of periastron is
`t0 - M*period/(2π)`. -/
def specC1PropertyAt (r_v v_v : Vec3) (mass_tot t0 G : ℝ) : Prop :=
  ∀ out : KeplerOut, keplerian_from_cartesian r_v v_v mass_tot t0 G = Except.ok out →
    out.mean_anom =
        specEccAnomOfTrue out.ecc out.true_anom -
          out.ecc * Real.sin (specEccAnomOfTrue out.ecc out.true_anom) ∧
      out.t0_perpass = t0 - out.mean_anom * out.period / (2 * Real.pi)

/-- C1 counterexample: at the accepted state `rIn1, vIn1, mass_tot = 4`
(eccentricity `1/2`, true anomaly `π/2`) the returned mean anomaly is
`π/2 - 1/2`, but the eccentric-anomaly relation demands
`π/3 - √3/4`; the two differ, so the claimed relation fails.  The source
computes `mean_anom = true_anom - e*np.sin(true_anom)`, plugging the true
anomaly directly into the Kepler-equation form. -/
theorem c1_mean_anom_not_via_ecc_anom : ¬ specC1PropertyAt rIn1 vIn1 4 0 1 := by
  intro h
  obtain ⟨hm, -⟩ := h kfcOut1 kfc_eval_in1
  rw [show kfcOut1.mean_anom = Real.pi / 2 - 1 / 2 from rfl,
    show kfcOut1.ecc = 1 / 2 from rfl, show kfcOut1.true_anom = Real.pi / 2 from rfl,
    specEccAnom_half_pi_div_two, Real.sin_pi_div_three] at hm
  have h3 := Real.sqrt_nonneg 3
  have hpi := Real.pi_gt_three
  linarith

/-- C1 amended: at every accepted input the returned mean anomaly is
`true_anom - ecc * sin(true_anom)` — the Kepler-equation form applied
directly to the returned TRUE anomaly (not to the eccentric anomaly) —
and the returned epoch of periastron passage is
`t0 - mean_anom * period / (2π)`. -/
theorem c1_mean_anom_direct_kepler_form (r_v v_v : Vec3) (mass_tot t0 G : ℝ)
    (out : KeplerOut)
    (h : keplerian_from_cartesian r_v v_v mass_tot t0 G = Except.ok out) :
    out.mean_anom = out.true_anom - out.ecc * Real.sin out.true_anom ∧
      out.t0_perpass = t0 - out.mean_anom * out.period / (2 * Real.pi) := by
  rw [keplerian_from_cartesian] at h
  split_ifs at h
  injection h with h2
  subst h2
  exact ⟨rfl, rfl⟩

/-- Witness for the amended C1 at the concrete state `rIn1, vIn1`. -/
theorem c1_mean_anom_direct_witness :
    kfcOut1.mean_anom = kfcOut1.true_anom - kfcOut1.ecc * Real.sin kfcOut1.true_anom ∧
      kfcOut1.t0_perpass = 0 - kfcOut1.mean_anom * kfcOut1.period / (2 * Real.pi) :=
  c1_mean_anom_direct_kepler_form rIn1 vIn1 4 0 1 kfcOut1 kfc_eval_in1

/-- Velocity magnitude for the C3 state: `1 - 1e-8`, so the round-tripped
eccentricity is tiny but nonzero. -/
noncomputable def vyIn2 : ℝ := 99999999 / 100000000

/-- Concrete velocity for C3: `(0, 1 - 1e-8, 0)`. -/
noncomputable def vIn2 : Vec3 := ⟨0, vyIn2, 0⟩

/-- The element tuple at `(rIn1, vIn2, mass_tot = 1, t0 = 0, G = 1)`:
planar (incl `= 0`), eccentricity `199999999e-16 ≈ 2e-8 < 1e-6` but not
exactly zero, so the source's `e == 0.` test fails and
`per0 = arccos(e_v[0]/e) = arccos(-1) = π`. -/
noncomputable def kfcOut2 : KeplerOut :=
  ⟨smaOf rIn1 vIn2 (muOf 1 1), 199999999 / 10000000000000000, periodOf rIn1 vIn2 1 1, 0,
    Real.pi, 0, 0, 0, t0PerpassOf rIn1 vIn2 1 0 1⟩

/-- Evaluation of the converter at the C3 state. -/
theorem kfc_eval_in2 : keplerian_from_cartesian rIn1 vIn2 1 0 1 = Except.ok kfcOut2 := by
  have hr : norm3 rIn1 = 1 := norm3_eq _ _ (by norm_num) (by norm_num [rIn1])
  have hv2 : norm3 vIn2 ^ 2 = 9999999800000001 / 10000000000000000 := by
    rw [norm3_sq]; norm_num [vIn2, vyIn2]
  have hdot : dot3 rIn1 vIn2 = 0 := by norm_num [dot3, rIn1, vIn2]
  have hev : eVecOf rIn1 vIn2 (muOf 1 1) =
      ⟨-(199999999 / 10000000000000000), 0, 0⟩ := by
    rw [eVecOf, muOf, hr, hv2, hdot]
    simp only [smul3, vsub3, rIn1, vIn2]
    norm_num
  have hecc : eccOf rIn1 vIn2 (muOf 1 1) = 199999999 / 10000000000000000 := by
    rw [eccOf, hev]
    exact norm3_eq _ _ (by norm_num) (by norm_num)
  have hh : cross3 rIn1 vIn2 = ⟨0, 0, vyIn2⟩ := by
    simp only [cross3, rIn1, vIn2]
    norm_num
  have hincl : inclOf rIn1 vIn2 = 0 := by
    rw [inclOf, hh, norm3_eq ⟨0, 0, vyIn2⟩ vyIn2 (by norm_num [vyIn2]) (by norm_num)]
    rw [show ((⟨0, 0, vyIn2⟩ : Vec3)).z = vyIn2 from rfl,
      div_self (by norm_num [vyIn2])]
    exact Real.arccos_one
  have hper0raw : per0Raw rIn1 vIn2 (muOf 1 1) = Real.pi := by
    rw [per0Raw, hincl, hecc, hev]
    rw [if_pos (by norm_num), if_neg (by norm_num)]
    have hq : ((⟨-(199999999 / 10000000000000000), 0, 0⟩ : Vec3)).x /
        ((199999999 : ℝ) / 10000000000000000) = -1 := by norm_num
    rw [hq]
    exact Real.arccos_neg_one
  have hper0 : per0Of rIn1 vIn2 (muOf 1 1) = Real.pi := by
    rw [per0Of, hecc, hper0raw, if_pos (by norm_num)]
  have hlong : longAnOf rIn1 vIn2 = 0 := by
    rw [longAnOf, hincl, if_pos (by norm_num)]
  have htrue : trueAnomOf rIn1 vIn2 (muOf 1 1) = 0 := by
    rw [trueAnomOf, hecc, hincl, hr]
    rw [if_pos (by norm_num), if_pos (by norm_num), if_neg (by norm_num [vIn2, vyIn2])]
    rw [show rIn1.x = 1 from rfl]
    norm_num [Real.arccos_one]
  have hmean : meanAnomOf rIn1 vIn2 (muOf 1 1) = 0 := by
    rw [meanAnomOf, htrue, Real.sin_zero]
    ring
  rw [keplerian_from_cartesian, if_neg (by rw [hecc]; norm_num)]
  rw [kfcOut2, hecc, hincl, hper0, hlong, htrue, hmean]

/-- C3 as stated: in the planar (`|incl| < 1e-12`) near-circular
(`ecc < 1e-6`) branch, the returned argument of periastron is exactly 0,
the longitude of the ascending node is exactly 0, and the true anomaly is
the quadrant-corrected `arccos(r_x/|r|)`. -/
def specC3PropertyAt (r_v v_v : Vec3) (mass_tot t0 G : ℝ) : Prop :=
  ∀ out : KeplerOut, keplerian_from_cartesian r_v v_v mass_tot t0 G = Except.ok out →
    |out.incl| < 1e-12 → out.ecc < 1e-6 →
      out.per0 = 0 ∧ out.long_an = 0 ∧
        out.true_anom =
          (if 0 < v_v.x then 2 * Real.pi - Real.arccos (r_v.x / norm3 r_v)
           else Real.arccos (r_v.x / norm3 r_v))

/-- C3 counterexample: the planar state `rIn1, vIn2` has derived
eccentricity `≈ 2e-8`, below the `1e-6` circularity tolerance but not
exactly zero, and the source then returns
`per0 = arccos(e_v[0]/e) = π ≠ 0`: the `per0 = 0` convention is applied
only under the exact `e == 0.` test, not under the `1e-6` tolerance. -/
theorem c3_per0_not_zero_for_tiny_ecc : ¬ specC3PropertyAt rIn1 vIn2 1 0 1 := by
  intro h
  obtain ⟨hp, -, -⟩ :=
    h kfcOut2 kfc_eval_in2 (by rw [show kfcOut2.incl = 0 from rfl]; norm_num)
      (by rw [show kfcOut2.ecc = (199999999 : ℝ) / 10000000000000000 from rfl]; norm_num)
  rw [show kfcOut2.per0 = Real.pi from rfl] at hp
  exact Real.pi_ne_zero hp

/-- C3 amended: in the planar near-circular branch the longitude of the
ascending node is exactly 0 and the true anomaly is the quadrant-corrected
`arccos(r_x/|r|)`, but the argument of periastron is 0 only when the
derived eccentricity is EXACTLY zero; for `0 < ecc < 1e-6` it is
`arccos(e_v_x / ecc)`. -/
theorem c3_planar_circular_branch (r_v v_v : Vec3) (mass_tot t0 G : ℝ) (out : KeplerOut)
    (h : keplerian_from_cartesian r_v v_v mass_tot t0 G = Except.ok out)
    (hi : |out.incl| < 1e-12) (he : out.ecc < 1e-6) :
    out.long_an = 0 ∧
      (out.ecc = 0 → out.per0 = 0) ∧
      (out.ecc ≠ 0 →
        out.per0 = Real.arccos ((eVecOf r_v v_v (muOf mass_tot G)).x / out.ecc)) ∧
      out.true_anom =
        (if 0 < v_v.x then 2 * Real.pi - Real.arccos (r_v.x / norm3 r_v)
         else Real.arccos (r_v.x / norm3 r_v)) := by
  rw [keplerian_from_cartesian] at h
  split_ifs at h
  injection h with h2
  subst h2
  have hI : |inclOf r_v v_v| < 1e-12 := hi
  have hE : eccOf r_v v_v (muOf mass_tot G) < 1e-6 := he
  refine ⟨?_, ?_, ?_, ?_⟩
  · show longAnOf r_v v_v = 0
    rw [longAnOf, if_pos hI]
  · intro h0
    show per0Of r_v v_v (muOf mass_tot G) = 0
    rw [per0Of, if_pos hE, per0Raw, if_pos hI, if_pos h0]
  · intro h0
    show per0Of r_v v_v (muOf mass_tot G) =
      Real.arccos ((eVecOf r_v v_v (muOf mass_tot G)).x / eccOf r_v v_v (muOf mass_tot G))
    rw [per0Of, if_pos hE, per0Raw, if_pos hI, if_neg h0]
  · show trueAnomOf r_v v_v (muOf mass_tot G) = _
    rw [trueAnomOf, if_pos hE, if_pos hI]

/-- Witness for the amended C3 at the concrete planar near-circular state. -/
theorem c3_planar_circular_witness :
    kfcOut2.long_an = 0 ∧
      (kfcOut2.ecc = 0 → kfcOut2.per0 = 0) ∧
      (kfcOut2.ecc ≠ 0 →
        kfcOut2.per0 = Real.arccos ((eVecOf rIn1 vIn2 (muOf 1 1)).x / kfcOut2.ecc)) ∧
      kfcOut2.true_anom =
        (if 0 < vIn2.x then 2 * Real.pi - Real.arccos (rIn1.x / norm3 rIn1)
         else Real.arccos (rIn1.x / norm3 rIn1)) :=
  c3_planar_circular_branch rIn1 vIn2 1 0 1 kfcOut2 kfc_eval_in2
    (by rw [show kfcOut2.incl = 0 from rfl]; norm_num)
    (by rw [show kfcOut2.ecc = (199999999 : ℝ) / 10000000000000000 from rfl]; norm_num)

/-- Concrete position for C8: `(0, 0, -1)` (polar orbit, periastron
towards -z). -/
noncomputable def rIn3 : Vec3 := ⟨0, 0, -1⟩

/-- Concrete velocity for C8: `(1, 0, 0)`. -/
noncomputable def vIn3 : Vec3 := ⟨1, 0, 0⟩

/-- Total mass for C8, chosen so that `mu = 1e8/(1e8+1)` and the derived
eccentricity is exactly `1e-8`. -/
noncomputable def mtIn3 : ℝ := 100000000 / 100000001

/-- Eccentricity vector at the C8 state: `(0, 0, -1e-8)`. -/
theorem eVec_in3 : eVecOf rIn3 vIn3 (muOf mtIn3 1) = ⟨0, 0, -(1 / 100000000)⟩ := by
  have hr : norm3 rIn3 = 1 := norm3_eq _ _ (by norm_num) (by norm_num [rIn3])
  have hv2 : norm3 vIn3 ^ 2 = 1 := by rw [norm3_sq]; norm_num [vIn3]
  have hdot : dot3 rIn3 vIn3 = 0 := by norm_num [dot3, rIn3, vIn3]
  rw [eVecOf, muOf, hr, hv2, hdot]
  simp only [smul3, vsub3, rIn3, vIn3, mtIn3]
  norm_num

/-- Node vector at the C8 state: `(1, 0, 0)`. -/
theorem nVec_in3 : nVecOf rIn3 vIn3 = ⟨1, 0, 0⟩ := by
  have hh : cross3 rIn3 vIn3 = ⟨0, -1, 0⟩ := by
    simp only [cross3, rIn3, vIn3]
    norm_num
  rw [nVecOf, hh]
  simp only [cross3, zhat]
  norm_num

/-- The element tuple at `(rIn3, vIn3, mass_tot = mtIn3, t0 = 0, G = 1)`:
non-planar (incl `= π/2`), eccentricity `1e-8 < 1e-6` with
`e_v_z = -1e-8 < 0`, yet `per0 = π/2` — the `2π - per0` adjustment is
skipped because it lives in the `e >= 1e-6` branch. -/
noncomputable def kfcOut3 : KeplerOut :=
  ⟨smaOf rIn3 vIn3 (muOf mtIn3 1), 1 / 100000000, periodOf rIn3 vIn3 mtIn3 1,
    Real.pi / 2, Real.pi / 2, Real.pi, 3 * Real.pi / 2,
    meanAnomOf rIn3 vIn3 (muOf mtIn3 1), t0PerpassOf rIn3 vIn3 mtIn3 0 1⟩

/-- Evaluation of the converter at the C8 state. -/
theorem kfc_eval_in3 : keplerian_from_cartesian rIn3 vIn3 mtIn3 0 1 = Except.ok kfcOut3 := by
  have hr : norm3 rIn3 = 1 := norm3_eq _ _ (by norm_num) (by norm_num [rIn3])
  have hecc : eccOf rIn3 vIn3 (muOf mtIn3 1) = 1 / 100000000 := by
    rw [eccOf, eVec_in3]
    exact norm3_eq _ _ (by norm_num) (by norm_num)
  have hh : cross3 rIn3 vIn3 = ⟨0, -1, 0⟩ := by
    simp only [cross3, rIn3, vIn3]
    norm_num
  have hnormh : norm3 (⟨0, -1, 0⟩ : Vec3) = 1 := norm3_eq _ _ (by norm_num) (by norm_num)
  have hincl : inclOf rIn3 vIn3 = Real.pi / 2 := by
    rw [inclOf, hh, hnormh, show ((⟨0, -1, 0⟩ : Vec3)).z = (0 : ℝ) from rfl]
    norm_num [Real.arccos_zero]
  have hInclNot : ¬ |inclOf rIn3 vIn3| < 1e-12 := by
    rw [hincl, abs_of_nonneg (by positivity : (0 : ℝ) ≤ Real.pi / 2)]
    simp only [not_lt]
    linarith [Real.pi_gt_three]
  have hnormn : norm3 (⟨1, 0, 0⟩ : Vec3) = 1 := norm3_eq _ _ (by norm_num) (by norm_num)
  have hlong : longAnOf rIn3 vIn3 = Real.pi := by
    rw [longAnOf, if_neg hInclNot, nVec_in3, hnormn]
    rw [if_neg (by norm_num), show ((⟨1, 0, 0⟩ : Vec3)).x = (1 : ℝ) from rfl]
    norm_num [Real.arccos_one]
  have hdotne : dot3 (⟨1, 0, 0⟩ : Vec3) ⟨0, 0, -(1 / 100000000)⟩ = 0 := by
    norm_num [dot3]
  have hper0raw : per0Raw rIn3 vIn3 (muOf mtIn3 1) = Real.pi / 2 := by
    rw [per0Raw, if_neg hInclNot, hecc, nVec_in3, eVec_in3, hnormn]
    rw [if_neg (by norm_num), hdotne]
    norm_num [Real.arccos_zero]
  have hper0 : per0Of rIn3 vIn3 (muOf mtIn3 1) = Real.pi / 2 := by
    rw [per0Of, hecc, hper0raw, if_pos (by norm_num)]
  have htrue : trueAnomOf rIn3 vIn3 (muOf mtIn3 1) = 3 * Real.pi / 2 := by
    have hdnv : dot3 (⟨1, 0, 0⟩ : Vec3) vIn3 = 1 := by norm_num [dot3, vIn3]
    have hdnr : dot3 (⟨1, 0, 0⟩ : Vec3) rIn3 = 0 := by norm_num [dot3, rIn3]
    rw [trueAnomOf, hecc, nVec_in3, hdnv, hdnr, hnormn, hr]
    rw [if_pos (by norm_num), if_neg hInclNot, if_pos (by norm_num)]
    norm_num [Real.arccos_zero]
    ring
  rw [keplerian_from_cartesian, if_neg (by rw [hecc]; norm_num)]
  rw [kfcOut3, hecc, hincl, hper0, hlong, htrue]

/-- C8 as stated: in the non-degenerate branch (`|incl| >= 1e-12`) the
longitude of the ascending node is the quadrant-corrected
`arccos(n_x/n)` plus π, the argument of periastron is
`arccos(n·e_v/(n e))` quadrant-corrected by the sign of `e_v_z`, and (for
`ecc >= 1e-6`) the true anomaly is `arccos(e_v·r/(e r))`
quadrant-corrected by the sign of `r·v`. -/
def specC8PropertyAt (r_v v_v : Vec3) (mass_tot t0 G : ℝ) : Prop :=
  ∀ out : KeplerOut, keplerian_from_cartesian r_v v_v mass_tot t0 G = Except.ok out →
    ¬ |out.incl| < 1e-12 →
      out.long_an =
          (if (nVecOf r_v v_v).y < 0 then
              2 * Real.pi - Real.arccos ((nVecOf r_v v_v).x / norm3 (nVecOf r_v v_v))
            else Real.arccos ((nVecOf r_v v_v).x / norm3 (nVecOf r_v v_v))) + Real.pi ∧
        out.per0 =
          (if (eVecOf r_v v_v (muOf mass_tot G)).z < 0 then
              2 * Real.pi -
                Real.arccos
                  (dot3 (nVecOf r_v v_v) (eVecOf r_v v_v (muOf mass_tot G)) /
                    (norm3 (nVecOf r_v v_v) * out.ecc))
            else
              Real.arccos
                (dot3 (nVecOf r_v v_v) (eVecOf r_v v_v (muOf mass_tot G)) /
                  (norm3 (nVecOf r_v v_v) * out.ecc))) ∧
        (1e-6 ≤ out.ecc →
          out.true_anom =
            (if dot3 r_v v_v < 0 then
                2 * Real.pi -
                  Real.arccos
                    (dot3 (eVecOf r_v v_v (muOf mass_tot G)) r_v / (out.ecc * norm3 r_v))
              else
                Real.arccos
                  (dot3 (eVecOf r_v v_v (muOf mass_tot G)) r_v / (out.ecc * norm3 r_v))))

/-- C8 counterexample: at the non-degenerate state `rIn3, vIn3` the
eccentricity is `1e-8 < 1e-6` and `e_v_z = -1e-8 < 0`, so the claimed
`e_v_z`-sign quadrant correction demands `per0 = 2π - π/2 = 3π/2`, but the
source returns `π/2`: the correction is applied only in the `e >= 1e-6`
branch. -/
theorem c8_per0_correction_skipped_small_ecc : ¬ specC8PropertyAt rIn3 vIn3 mtIn3 0 1 := by
  intro h
  obtain ⟨-, hp, -⟩ :=
    h kfcOut3 kfc_eval_in3
      (by
        rw [show kfcOut3.incl = Real.pi / 2 from rfl,
          abs_of_nonneg (by positivity : (0 : ℝ) ≤ Real.pi / 2)]
        simp only [not_lt]
        linarith [Real.pi_gt_three])
  rw [eVec_in3, nVec_in3, show kfcOut3.ecc = (1 : ℝ) / 100000000 from rfl,
    norm3_eq (⟨1, 0, 0⟩ : Vec3) 1 (by norm_num) (by norm_num),
    show kfcOut3.per0 = Real.pi / 2 from rfl] at hp
  rw [if_pos (by norm_num)] at hp
  rw [show dot3 (⟨1, 0, 0⟩ : Vec3) ⟨0, 0, -(1 / 100000000)⟩ = 0 from by norm_num [dot3]] at hp
  norm_num [Real.arccos_zero] at hp
  linarith [Real.pi_pos]

/-- C8 amended: in the non-degenerate branch the longitude of the
ascending node and (for `ecc >= 1e-6`) the argument of periastron and the
true anomaly are as claimed, but the `e_v_z`-sign quadrant correction of
`per0` is applied only when `ecc >= 1e-6`; for `0 < ecc < 1e-6` the
returned `per0` is the uncorrected `arccos(n·e_v/(n ecc))`, and for
`ecc = 0` exactly it is 0. -/
theorem c8_nondegenerate_branch_formulas (r_v v_v : Vec3) (mass_tot t0 G : ℝ)
    (out : KeplerOut)
    (h : keplerian_from_cartesian r_v v_v mass_tot t0 G = Except.ok out)
    (hi : ¬ |out.incl| < 1e-12) :
    out.long_an =
        (if (nVecOf r_v v_v).y < 0 then
            2 * Real.pi - Real.arccos ((nVecOf r_v v_v).x / norm3 (nVecOf r_v v_v))
          else Real.arccos ((nVecOf r_v v_v).x / norm3 (nVecOf r_v v_v))) + Real.pi ∧
      (1e-6 ≤ out.ecc →
        out.per0 =
            (if (eVecOf r_v v_v (muOf mass_tot G)).z < 0 ∧ 0 < out.ecc then
                2 * Real.pi -
                  Real.arccos
                    (dot3 (nVecOf r_v v_v) (eVecOf r_v v_v (muOf mass_tot G)) /
                      (norm3 (nVecOf r_v v_v) * out.ecc))
              else
                Real.arccos
                  (dot3 (nVecOf r_v v_v) (eVecOf r_v v_v (muOf mass_tot G)) /
                    (norm3 (nVecOf r_v v_v) * out.ecc))) ∧
          out.true_anom =
            (if dot3 r_v v_v < 0 then
                2 * Real.pi -
                  Real.arccos
                    (dot3 (eVecOf r_v v_v (muOf mass_tot G)) r_v / (out.ecc * norm3 r_v))
              else
                Real.arccos
                  (dot3 (eVecOf r_v v_v (muOf mass_tot G)) r_v / (out.ecc * norm3 r_v)))) ∧
      (out.ecc < 1e-6 → out.ecc ≠ 0 →
        out.per0 =
          Real.arccos
            (dot3 (nVecOf r_v v_v) (eVecOf r_v v_v (muOf mass_tot G)) /
              (norm3 (nVecOf r_v v_v) * out.ecc))) ∧
      (out.ecc = 0 → out.per0 = 0) := by
  rw [keplerian_from_cartesian] at h
  split_ifs at h
  injection h with h2
  subst h2
  have hI : ¬ |inclOf r_v v_v| < 1e-12 := hi
  refine ⟨?_, ?_, ?_, ?_⟩
  · show longAnOf r_v v_v = _
    rw [longAnOf, if_neg hI]
  · intro hge
    have hE6 : ¬ eccOf r_v v_v (muOf mass_tot G) < 1e-6 := not_lt.mpr hge
    have h0 : ¬ eccOf r_v v_v (muOf mass_tot G) = 0 := by
      intro hz
      rw [hz] at hge
      norm_num at hge
    constructor
    · show per0Of r_v v_v (muOf mass_tot G) =
        (if (eVecOf r_v v_v (muOf mass_tot G)).z < 0 ∧
            0 < eccOf r_v v_v (muOf mass_tot G) then
          2 * Real.pi -
            Real.arccos
              (dot3 (nVecOf r_v v_v) (eVecOf r_v v_v (muOf mass_tot G)) /
                (norm3 (nVecOf r_v v_v) * eccOf r_v v_v (muOf mass_tot G)))
        else
          Real.arccos
            (dot3 (nVecOf r_v v_v) (eVecOf r_v v_v (muOf mass_tot G)) /
              (norm3 (nVecOf r_v v_v) * eccOf r_v v_v (muOf mass_tot G))))
      rw [per0Of, if_neg hE6, per0Raw, if_neg hI, if_neg h0]
    · show trueAnomOf r_v v_v (muOf mass_tot G) = _
      rw [trueAnomOf, if_neg hE6]
  · intro hlt h0
    have hL : eccOf r_v v_v (muOf mass_tot G) < 1e-6 := hlt
    have h0e : ¬ eccOf r_v v_v (muOf mass_tot G) = 0 := h0
    show per0Of r_v v_v (muOf mass_tot G) =
      Real.arccos
        (dot3 (nVecOf r_v v_v) (eVecOf r_v v_v (muOf mass_tot G)) /
          (norm3 (nVecOf r_v v_v) * eccOf r_v v_v (muOf mass_tot G)))
    rw [per0Of, if_pos hL, per0Raw, if_neg hI, if_neg h0e]
  · intro h0
    have h0e : eccOf r_v v_v (muOf mass_tot G) = 0 := h0
    show per0Of r_v v_v (muOf mass_tot G) = 0
    rw [per0Of, if_pos (by rw [h0e]; norm_num), per0Raw, if_neg hI, if_pos h0e]

/-- Witness for the amended C8 at the concrete non-degenerate state. -/
theorem c8_nondegenerate_branch_witness :
    kfcOut3.long_an =
        (if (nVecOf rIn3 vIn3).y < 0 then
            2 * Real.pi - Real.arccos ((nVecOf rIn3 vIn3).x / norm3 (nVecOf rIn3 vIn3))
          else Real.arccos ((nVecOf rIn3 vIn3).x / norm3 (nVecOf rIn3 vIn3))) + Real.pi ∧
      (1e-6 ≤ kfcOut3.ecc →
        kfcOut3.per0 =
            (if (eVecOf rIn3 vIn3 (muOf mtIn3 1)).z < 0 ∧ 0 < kfcOut3.ecc then
                2 * Real.pi -
                  Real.arccos
                    (dot3 (nVecOf rIn3 vIn3) (eVecOf rIn3 vIn3 (muOf mtIn3 1)) /
                      (norm3 (nVecOf rIn3 vIn3) * kfcOut3.ecc))
              else
                Real.arccos
                  (dot3 (nVecOf rIn3 vIn3) (eVecOf rIn3 vIn3 (muOf mtIn3 1)) /
                    (norm3 (nVecOf rIn3 vIn3) * kfcOut3.ecc))) ∧
          kfcOut3.true_anom =
            (if dot3 rIn3 vIn3 < 0 then
                2 * Real.pi -
                  Real.arccos
                    (dot3 (eVecOf rIn3 vIn3 (muOf mtIn3 1)) rIn3 /
                      (kfcOut3.ecc * norm3 rIn3))
              else
                Real.arccos
                  (dot3 (eVecOf rIn3 vIn3 (muOf mtIn3 1)) rIn3 /
                    (kfcOut3.ecc * norm3 rIn3)))) ∧
      (kfcOut3.ecc < 1e-6 → kfcOut3.ecc ≠ 0 →
        kfcOut3.per0 =
          Real.arccos
            (dot3 (nVecOf rIn3 vIn3) (eVecOf rIn3 vIn3 (muOf mtIn3 1)) /
              (norm3 (nVecOf rIn3 vIn3) * kfcOut3.ecc))) ∧
      (kfcOut3.ecc = 0 → kfcOut3.per0 = 0) :=
  c8_nondegenerate_branch_formulas rIn3 vIn3 mtIn3 0 1 kfcOut3 kfc_eval_in3
    (by
      rw [show kfcOut3.incl = Real.pi / 2 from rfl,
        abs_of_nonneg (by positivity : (0 : ℝ) ≤ Real.pi / 2)]
      simp only [not_lt]
      linarith [Real.pi_gt_three])

/-- Speed of light in AU/day, `c.c.to(u.AU/u.d).value`
(`particle_ltte`, nbody.py line 220): exact SI metre-per-second value times
the day in seconds over the IAU astronomical unit in metres. -/
noncomputable def c_AU_d : ℝ := 299792458 * 86400 / 149597870700

/-- `c_AU_d` is a nonzero constant. -/
theorem c_AU_d_div_self : c_AU_d / c_AU_d = 1 :=
  div_self (by norm_num [c_AU_d])

/-- A rebound particle: mass, position and velocity. -/
structure Particle where
  m : ℝ
  x : ℝ
  y : ℝ
  z : ℝ
  vx : ℝ
  vy : ℝ
  vz : ℝ

/-- The rebound simulation, abstracted to its current time `sim.t`.
Particle states are the injected trajectory evaluated at the current time,
per the module's propagator contract: `sim.integrate(time,
exact_finish_time=True)` advances to exactly `time` and the state there is
a deterministic function of that time. -/
structure RSim where
  t : ℝ

/-- `sim.particles[j]` under the trajectory abstraction. -/
noncomputable def simParticles (traj : ℕ → ℝ → Particle) (sim : RSim) (j : ℕ) : Particle :=
  traj j sim.t

/-- `sim.integrate(time, exact_finish_time=True)` (nbody.py line 382). -/
noncomputable def simIntegrate (sim : RSim) (time : ℝ) : RSim := ⟨time⟩

/-- The LTTE residual closure (nbody.py lines 222-230):
`residual(t) = (t - particles[N].z / c_AU_d) - t_obs`, i.e. the
barycentric arrival time of light emitted at `t` minus the requested
observation time. -/
noncomputable def ltteResidual (traj : ℕ → ℝ → Particle) (particle_N : ℕ)
    (t_obs t : ℝ) : ℝ :=
  t - (traj particle_N t).z / c_AU_d - t_obs

/-- `particle_ltte(sim, particle_N, t_obs)` (nbody.py lines 219-237):
`scipy.optimize.newton` (injected here as `newtonRoot`) is run on the
residual seeded at `t_obs`; the simulation is then integrated to the
returned root and that particle state is returned. -/
noncomputable def particle_ltte (traj : ℕ → ℝ → Particle)
    (newtonRoot : (ℝ → ℝ) → ℝ → ℝ) (sim : RSim) (particle_N : ℕ) (t_obs : ℝ) :
    RSim × Particle :=
  let t_barycenter := newtonRoot (ltteResidual traj particle_N t_obs) t_obs
  (⟨t_barycenter⟩, traj particle_N t_barycenter)

/-- One body `j` of the inner loop of `dynamics_from_bundle_rebound`
(nbody.py lines 383-428): the Euler/Roche output is computed from the
CURRENT simulation state (`calculate_euler(sim, j)`), then, if LTTE is on,
`particle_ltte` moves the simulation to the body's emission time and that
particle is stored. -/
noncomputable def nbodyStepBody {α : Type} (traj : ℕ → ℝ → Particle)
    (newtonRoot : (ℝ → ℝ) → ℝ → ℝ) (calcEuler : (ℕ → Particle) → ℕ → α)
    (return_roche_euler ltte : Bool) (time : ℝ) (sim : RSim) (j : ℕ) :
    RSim × (Option α × Particle) :=
  let euler :=
    if return_roche_euler then some (calcEuler (simParticles traj sim) j) else none
  if ltte then
    let p := particle_ltte traj newtonRoot sim j time
    (p.1, (euler, p.2))
  else (sim, (euler, simParticles traj sim j))

/-- The per-body loop `for j in range(sim.N)` threading the mutable
simulation through the bodies in order. -/
noncomputable def runBodies {α : Type} (traj : ℕ → ℝ → Particle)
    (newtonRoot : (ℝ → ℝ) → ℝ → ℝ) (calcEuler : (ℕ → Particle) → ℕ → α)
    (return_roche_euler ltte : Bool) (time : ℝ) :
    RSim → List ℕ → RSim × List (Option α × Particle)
  | sim, [] => (sim, [])
  | sim, j :: js =>
    let s := nbodyStepBody traj newtonRoot calcEuler return_roche_euler ltte time sim j
    let rest := runBodies traj newtonRoot calcEuler return_roche_euler ltte time s.1 js
    (rest.1, s.2 :: rest.2)

/-- The per-time loop `for i, time in enumerate(times)`
(nbody.py lines 380-428): integrate to exactly the requested time, then run
the per-body loop, threading the simulation state across iterations. -/
noncomputable def runTimes {α : Type} (traj : ℕ → ℝ → Particle)
    (newtonRoot : (ℝ → ℝ) → ℝ → ℝ) (calcEuler : (ℕ → Particle) → ℕ → α)
    (return_roche_euler ltte : Bool) (N : ℕ) :
    RSim → List ℝ → RSim × List (ℝ × List (Option α × Particle))
  | sim, [] => (sim, [])
  | sim, time :: rest =>
    let sim1 := simIntegrate sim time
    let b := runBodies traj newtonRoot calcEuler return_roche_euler ltte time sim1
      (List.range N)
    let more := runTimes traj newtonRoot calcEuler return_roche_euler ltte N b.1 rest
    (more.1, (time, b.2) :: more.2)

/-- Availability flags and compute options of the rebound path:
`_can_rebound`, `_can_reboundx` (nbody.py lines 16-30) and the `gr` and
`ltte` compute parameters. -/
structure ReboundConfig where
  canRebound : Bool
  canReboundx : Bool
  gr : Bool
  ltte : Bool

/-- The spec's `UnsupportedConfigurationError`, corresponding to the
source's `raise ImportError` for a missing rebound or reboundx backend
(nbody.py lines 210-214). -/
inductive NBodyError where
  | unsupportedConfiguration

/-- `dynamics_from_bundle_rebound` (nbody.py lines 204-437): checks the
backend availability (and reboundx availability when GR is requested)
before anything is integrated, shifts the requested times by `t0`
(`times = np.asarray(times) - t0`, line 297), and runs the per-time loop
from the initial state.  No ordering check is performed on `times`. -/
noncomputable def dynamics_from_bundle_rebound {α : Type} (cfg : ReboundConfig)
    (traj : ℕ → ℝ → Particle) (newtonRoot : (ℝ → ℝ) → ℝ → ℝ)
    (calcEuler : (ℕ → Particle) → ℕ → α) (N : ℕ) (times : List ℝ) (t0 : ℝ)
    (return_roche_euler : Bool) :
    Except NBodyError (RSim × List (ℝ × List (Option α × Particle))) :=
  if cfg.canRebound = false then Except.error NBodyError.unsupportedConfiguration
  else if cfg.gr = true ∧ cfg.canReboundx = false then
    Except.error NBodyError.unsupportedConfiguration
  else
    Except.ok
      (runTimes traj newtonRoot calcEuler return_roche_euler cfg.ltte N ⟨0⟩
        (times.map (fun t => t - t0)))

/-- Helper: when both availability checks pass, the rebound path returns
`Except.ok` with the per-time loop's output on the shifted times. -/
theorem dfbr_ok_of_checks {α : Type} (cfg : ReboundConfig) (traj : ℕ → ℝ → Particle)
    (newtonRoot : (ℝ → ℝ) → ℝ → ℝ) (calcEuler : (ℕ → Particle) → ℕ → α) (N : ℕ)
    (times : List ℝ) (t0 : ℝ) (rre : Bool) (h1 : cfg.canRebound = true)
    (h2 : cfg.gr = true → cfg.canReboundx = true) :
    dynamics_from_bundle_rebound cfg traj newtonRoot calcEuler N times t0 rre =
      Except.ok
        (runTimes traj newtonRoot calcEuler rre cfg.ltte N ⟨0⟩
          (times.map (fun t => t - t0))) := by
  rw [dynamics_from_bundle_rebound, if_neg (by rw [h1]; simp), if_neg ?_]
  rintro ⟨hg, hx⟩
  rw [h2 hg] at hx
  exact Bool.noConfusion hx

/-- Helper: the per-time loop integrates to every entry of its time list,
in the order given, whatever the starting state. -/
theorem runTimes_targets {α : Type} (traj : ℕ → ℝ → Particle)
    (newtonRoot : (ℝ → ℝ) → ℝ → ℝ) (calcEuler : (ℕ → Particle) → ℕ → α)
    (rre ltte : Bool) (N : ℕ) (ts : List ℝ) :
    ∀ sim : RSim,
      ((runTimes traj newtonRoot calcEuler rre ltte N sim ts).2).map Prod.fst = ts := by
  induction ts with
  | nil => intro sim; rfl
  | cons time rest ih =>
    intro sim
    simp [runTimes, ih]

/-- A trivial constant trajectory used for concrete instantiations. -/
noncomputable def trajZero : ℕ → ℝ → Particle := fun _ _ => ⟨1, 0, 0, 0, 0, 0, 0⟩

/-- A concrete root finder: one Newton step with unit slope,
`x0 - f(x0)`.  It returns the exact root of every residual of the form
`f(t) = t - a`, which is the shape `ltteResidual` takes on the concrete
constant-z trajectories below. -/
noncomputable def newtonStep1 : (ℝ → ℝ) → ℝ → ℝ := fun f x0 => x0 - f x0

/-- A concrete Euler-element computation that records the x-coordinate of
the state snapshot it is handed: enough to observe WHICH simulation state
`calculate_euler` was called on. -/
noncomputable def eulerProbe : (ℕ → Particle) → ℕ → ℝ := fun snap j => (snap j).x

/-- C6: the rebound path fails with the unsupported-configuration error —
returning no step output, hence before any integration — whenever the
rebound backend is unavailable, or GR is requested and the reboundx
extension is unavailable. -/
theorem c6_unsupported_config_fail_fast {α : Type} (cfg : ReboundConfig)
    (traj : ℕ → ℝ → Particle) (newtonRoot : (ℝ → ℝ) → ℝ → ℝ)
    (calcEuler : (ℕ → Particle) → ℕ → α) (N : ℕ) (times : List ℝ) (t0 : ℝ)
    (rre : Bool)
    (h : cfg.canRebound = false ∨ (cfg.gr = true ∧ cfg.canReboundx = false)) :
    dynamics_from_bundle_rebound cfg traj newtonRoot calcEuler N times t0 rre =
      Except.error NBodyError.unsupportedConfiguration := by
  rw [dynamics_from_bundle_rebound]
  rcases h with h1 | h2
  · rw [if_pos h1]
  · by_cases hc : cfg.canRebound = false
    · rw [if_pos hc]
    · rw [if_neg hc, if_pos h2]

/-- Witness for C6: a missing rebound backend, and a GR request with a
missing reboundx extension, both yield the error at once. -/
theorem c6_unsupported_config_witness :
    dynamics_from_bundle_rebound ⟨false, false, false, false⟩ trajZero newtonStep1
        eulerProbe 1 [0] 0 false = Except.error NBodyError.unsupportedConfiguration ∧
      dynamics_from_bundle_rebound ⟨true, false, true, false⟩ trajZero newtonStep1
        eulerProbe 1 [0] 0 false = Except.error NBodyError.unsupportedConfiguration :=
  ⟨c6_unsupported_config_fail_fast ⟨false, false, false, false⟩ trajZero newtonStep1
      eulerProbe 1 [0] 0 false (Or.inl rfl),
    c6_unsupported_config_fail_fast ⟨true, false, true, false⟩ trajZero newtonStep1
      eulerProbe 1 [0] 0 false (Or.inr ⟨rfl, rfl⟩)⟩

/-- C2 as stated: handing the rebound path a time sequence that is not
strictly increasing makes it fail with an error (the spec's
`SequenceOrderError`) before any integration step. -/
def specC2SequenceOrderChecked : Prop :=
  ∀ (cfg : ReboundConfig) (traj : ℕ → ℝ → Particle) (newtonRoot : (ℝ → ℝ) → ℝ → ℝ)
    (calcEuler : (ℕ → Particle) → ℕ → ℝ) (N : ℕ) (times : List ℝ) (t0 : ℝ)
    (rre : Bool),
    ¬ times.Chain' (fun a b => a < b) →
      ∃ e, dynamics_from_bundle_rebound cfg traj newtonRoot calcEuler N times t0 rre =
        Except.error e

/-- C2 counterexample: with both backends available, the decreasing time
list `[1, 0]` is accepted — the call returns `Except.ok` and the per-time
loop integrates to both entries; no ordering validation exists anywhere in
the source, and no `SequenceOrderError` is ever raised. -/
theorem c2_no_sequence_order_check : ¬ specC2SequenceOrderChecked := by
  intro h
  obtain ⟨e, he⟩ :=
    h ⟨true, true, false, false⟩ trajZero newtonStep1 eulerProbe 1 [1, 0] 0 false
      (by
        simp only [List.chain'_cons, List.chain'_singleton, and_true, not_lt]
        norm_num)
  rw [dfbr_ok_of_checks ⟨true, true, false, false⟩ trajZero newtonStep1 eulerProbe 1
      [1, 0] 0 false rfl (fun hg => Bool.noConfusion hg)] at he
  exact Except.noConfusion he

/-- C2 amended: the N-body rebound path performs no ordering validation at
all: for ANY caller-supplied time list — strictly increasing or not — the
call (with the backend checks satisfied) returns successfully, and the
per-time loop integrates to every `t0`-shifted time in exactly the order
given. -/
theorem c2_times_integrated_as_given {α : Type} (cfg : ReboundConfig)
    (traj : ℕ → ℝ → Particle) (newtonRoot : (ℝ → ℝ) → ℝ → ℝ)
    (calcEuler : (ℕ → Particle) → ℕ → α) (N : ℕ) (times : List ℝ) (t0 : ℝ)
    (rre : Bool) (h1 : cfg.canRebound = true)
    (h2 : cfg.gr = true → cfg.canReboundx = true) :
    ∃ final steps,
      dynamics_from_bundle_rebound cfg traj newtonRoot calcEuler N times t0 rre =
          Except.ok (final, steps) ∧
        steps.map Prod.fst = times.map (fun t => t - t0) := by
  refine ⟨_, _,
    dfbr_ok_of_checks cfg traj newtonRoot calcEuler N times t0 rre h1 h2, ?_⟩
  exact runTimes_targets traj newtonRoot calcEuler rre cfg.ltte N _ _

/-- Witness for the amended C2: the non-increasing list `[1, 0]` is
integrated as given. -/
theorem c2_times_integrated_witness :
    ∃ final steps,
      dynamics_from_bundle_rebound ⟨true, true, false, false⟩ trajZero newtonStep1
          eulerProbe 1 [1, 0] 0 false = Except.ok (final, steps) ∧
        steps.map Prod.fst = [(1 : ℝ), 0].map (fun t => t - 0) :=
  c2_times_integrated_as_given ⟨true, true, false, false⟩ trajZero newtonStep1
    eulerProbe 1 [1, 0] 0 false rfl (fun hg => Bool.noConfusion hg)

/-- Two-body trajectory for C5/C7: body 0 sits at constant line-of-sight
offset `z = c_AU_d` (one day of light travel), body 1 moves with `x = t`
so its state reveals the time it was evaluated at. -/
noncomputable def trajC5 : ℕ → ℝ → Particle := fun j t =>
  if j = 0 then ⟨1, 0, 0, c_AU_d, 0, 0, 0⟩ else ⟨1, t, 0, 0, 0, 0, 0⟩

/-- The one-step root finder solves body 0's LTTE residual at `t_obs = 0`
exactly: the root is the emission time `1`, and the residual vanishes
there. -/
theorem trajC5_root_residual :
    ltteResidual trajC5 0 0 (newtonStep1 (ltteResidual trajC5 0 0) 0) = 0 := by
  have hdiv := c_AU_d_div_self
  norm_num [ltteResidual, newtonStep1, trajC5, hdiv]

/-- C5 at a failing input (two bodies, LTTE and Euler output both on,
requested time 5): body 0's LTTE root-find leaves the simulation at its
emission time 6, and body 1's Euler elements are then computed from the
state at time 6 — `some 6` is stored — although the state at the requested
time 5 gives 5, as the LTTE-off run shows.  The Euler output of bodies
after the first is NOT computed from the integrator state at the requested
time once LTTE is enabled, contradicting the claim and the source's own
`# get roche/euler information BEFORE making LTTE adjustments` comment. -/
theorem c5_euler_uses_perturbed_state :
    dynamics_from_bundle_rebound ⟨true, true, false, true⟩ trajC5 newtonStep1
        eulerProbe 2 [5] 0 true =
        Except.ok
          (⟨5⟩,
            [((5 : ℝ),
              [(some 0, ⟨1, 0, 0, c_AU_d, 0, 0, 0⟩),
                (some 6, ⟨1, 5, 0, 0, 0, 0, 0⟩)])]) ∧
      eulerProbe (fun k => trajC5 k 5) 1 = 5 ∧
      dynamics_from_bundle_rebound ⟨true, true, false, false⟩ trajC5 newtonStep1
        eulerProbe 2 [5] 0 true =
        Except.ok
          (⟨5⟩,
            [((5 : ℝ),
              [(some 0, ⟨1, 0, 0, c_AU_d, 0, 0, 0⟩),
                (some 5, ⟨1, 5, 0, 0, 0, 0, 0⟩)])]) ∧
      (6 : ℝ) ≠ 5 := by
  have hdiv := c_AU_d_div_self
  refine ⟨?_, by norm_num [eulerProbe, trajC5], ?_, by norm_num⟩
  · rw [dfbr_ok_of_checks ⟨true, true, false, true⟩ trajC5 newtonStep1 eulerProbe 2
      [5] 0 true rfl (fun hg => Bool.noConfusion hg)]
    norm_num [runTimes, runBodies, nbodyStepBody, particle_ltte, newtonStep1,
      ltteResidual, simIntegrate, simParticles, trajC5, eulerProbe, hdiv,
      show List.range 2 = [0, 1] from rfl]
  · rw [dfbr_ok_of_checks ⟨true, true, false, false⟩ trajC5 newtonStep1 eulerProbe 2
      [5] 0 true rfl (fun hg => Bool.noConfusion hg)]
    norm_num [runTimes, runBodies, nbodyStepBody, simIntegrate, simParticles,
      trajC5, eulerProbe, show List.range 2 = [0, 1] from rfl]

/-- C7 as stated: when the root finder converges, the returned emission
time `t_em` has the propagator advanced to it and the body's state taken
there, and satisfies `t_em + z(t_em)/c = t_obs`. -/
def specC7PropertyAt (traj : ℕ → ℝ → Particle) (newtonRoot : (ℝ → ℝ) → ℝ → ℝ)
    (sim : RSim) (j : ℕ) (t_obs : ℝ) : Prop :=
  ltteResidual traj j t_obs (newtonRoot (ltteResidual traj j t_obs) t_obs) = 0 →
    (particle_ltte traj newtonRoot sim j t_obs).1.t =
        newtonRoot (ltteResidual traj j t_obs) t_obs ∧
      (particle_ltte traj newtonRoot sim j t_obs).2 =
        traj j (newtonRoot (ltteResidual traj j t_obs) t_obs) ∧
      newtonRoot (ltteResidual traj j t_obs) t_obs +
          (traj j (newtonRoot (ltteResidual traj j t_obs) t_obs)).z / c_AU_d = t_obs

/-- C7 counterexample: for body 0 of `trajC5` (constant `z` worth one day
of light travel) observed at `t_obs = 0`, the root-find converges to
`t_em = 1`, and `t_em + z/c = 2 ≠ 0 = t_obs`: the claimed fixed-point
equation has the wrong sign.  A root of the source's residual
`t - z(t)/c - t_obs` satisfies `t_em - z(t_em)/c = t_obs`. -/
theorem c7_sign_of_ltte_relation : ¬ specC7PropertyAt trajC5 newtonStep1 ⟨0⟩ 0 0 := by
  intro h
  obtain ⟨-, -, hfix⟩ := h trajC5_root_residual
  have hdiv := c_AU_d_div_self
  norm_num [newtonStep1, ltteResidual, trajC5, hdiv] at hfix

/-- C7 amended: when the root finder converges on the residual
`f(t) = t - z(t)/c - t_obs` seeded at `t_obs`, the correction advances the
propagator to the returned root `t_em`, returns the body's state at `t_em`
(not at `t_obs`), and `t_em` satisfies `t_em - z(t_em)/c = t_obs` (light
emitted at `t_em` from that line-of-sight position arrives at the
barycentric time `t_obs`). -/
theorem c7_ltte_emission_time_relation (traj : ℕ → ℝ → Particle)
    (newtonRoot : (ℝ → ℝ) → ℝ → ℝ) (sim : RSim) (j : ℕ) (t_obs : ℝ)
    (h : ltteResidual traj j t_obs (newtonRoot (ltteResidual traj j t_obs) t_obs) = 0) :
    (particle_ltte traj newtonRoot sim j t_obs).1.t =
        newtonRoot (ltteResidual traj j t_obs) t_obs ∧
      (particle_ltte traj newtonRoot sim j t_obs).2 =
        traj j (newtonRoot (ltteResidual traj j t_obs) t_obs) ∧
      newtonRoot (ltteResidual traj j t_obs) t_obs -
          (traj j (newtonRoot (ltteResidual traj j t_obs) t_obs)).z / c_AU_d = t_obs := by
  refine ⟨rfl, rfl, ?_⟩
  rw [ltteResidual] at h
  linarith

/-- Witness for the amended C7 at the concrete converging instance. -/
theorem c7_ltte_emission_time_witness :
    ltteResidual trajC5 0 0 (newtonStep1 (ltteResidual trajC5 0 0) 0) = 0 ∧
      ((particle_ltte trajC5 newtonStep1 ⟨0⟩ 0 0).1.t =
          newtonStep1 (ltteResidual trajC5 0 0) 0 ∧
        (particle_ltte trajC5 newtonStep1 ⟨0⟩ 0 0).2 =
          trajC5 0 (newtonStep1 (ltteResidual trajC5 0 0) 0) ∧
        newtonStep1 (ltteResidual trajC5 0 0) 0 -
            (trajC5 0 (newtonStep1 (ltteResidual trajC5 0 0) 0)).z / c_AU_d = 0) :=
  ⟨trajC5_root_residual,
    c7_ltte_emission_time_relation trajC5 newtonStep1 ⟨0⟩ 0 0 trajC5_root_residual⟩

/-- `au_to_solrad = (1*u.AU).to(u.solRad).value` (nbody.py line 37): the
IAU astronomical unit over the IAU nominal solar radius, in metres. -/
noncomputable def au_to_solrad : ℝ := 149597870700 / 695700000

/-- `c.G.to('AU3 / (Msun d2)').value`, the gravitational parameter unit
conversion applied to each bundle mass in `dynamics_from_bundle_bs`
(nbody.py line 477). -/
noncomputable def G_AU_Msun_d : ℝ := 2.959122082855911e-4

/-- The positional arguments handed to `photodynam.do_dynamics`
(nbody.py line 563). -/
structure PDArgs where
  times : List ℝ
  masses : List ℝ
  smas : List ℝ
  eccs : List ℝ
  incls : List ℝ
  per0s : List ℝ
  long_ans : List ℝ
  mean_anoms : List ℝ
  t0 : ℝ
  stepsize : ℝ
  orbiterror : ℝ
  ltte : Bool
  return_roche_euler : Bool

/-- The dictionary returned by `photodynam.do_dynamics`: a time series and
time-major two-dimensional series (first index time, second component),
embedded as functions of the two indices. -/
structure PDResult where
  t : ℕ → ℝ
  x : ℕ → ℕ → ℝ
  y : ℕ → ℕ → ℝ
  z : ℕ → ℕ → ℝ
  vx : ℕ → ℕ → ℝ
  vy : ℕ → ℕ → ℝ
  vz : ℕ → ℕ → ℝ
  kepl_a : ℕ → ℕ → ℝ
  kepl_e : ℕ → ℕ → ℝ
  kepl_in : ℕ → ℕ → ℝ
  kepl_o : ℕ → ℕ → ℝ
  kepl_ln : ℕ → ℕ → ℝ
  kepl_ma : ℕ → ℕ → ℝ

/-- The per-object orbit index `oi if oi==0 else oi-1` used to read the
per-orbit photodynam output for object `oi` (nbody.py lines 591-596). -/
def shiftIdx (oi : ℕ) : ℕ := if oi = 0 then oi else oi - 1

/-- The instantaneous Roche/Euler series assembled by `dynamics_bs` when
`return_roche_euler` is requested (nbody.py lines 580-616); `ds` and `Fs`
are arrays of `None` in the source (`TODO` placeholders), embedded as
`none`. -/
structure RocheOut where
  ds : ℕ → ℕ → Option ℝ
  Fs : ℕ → ℕ → Option ℝ
  ethetas : ℕ → ℕ → ℝ
  elongans : ℕ → ℕ → ℝ
  eincls : ℕ → ℕ → ℝ
  periods : ℕ → ℕ → ℝ
  smas : ℕ → ℕ → ℝ
  eccs : ℕ → ℕ → ℝ
  per0s : ℕ → ℕ → ℝ
  long_ans : ℕ → ℕ → ℝ
  incls : ℕ → ℕ → ℝ
  t0_perpasses : ℕ → ℕ → ℝ

/-- The value returned by `dynamics_bs` (nbody.py lines 618-621): the time
series, the transposed/sign-flipped/unit-converted Cartesian series
(component-major), and the optional Roche/Euler block. -/
structure DynOut where
  ts : ℕ → ℝ
  xs : ℕ → ℕ → ℝ
  ys : ℕ → ℕ → ℝ
  zs : ℕ → ℕ → ℝ
  vxs : ℕ → ℕ → ℝ
  vys : ℕ → ℕ → ℝ
  vzs : ℕ → ℕ → ℝ
  roche : Option RocheOut

/-- The argument tuple `dynamics_bs` forwards to `photodynam.do_dynamics`,
exactly as given (nbody.py line 563): the caller's times are passed through
with no ordering validation. -/
def photodynamArgs (times masses smas eccs incls per0s long_ans mean_anoms : List ℝ)
    (t0 stepsize orbiterror : ℝ) (ltte return_roche_euler : Bool) : PDArgs :=
  ⟨times, masses, smas, eccs, incls, per0s, long_ans, mean_anoms, t0, stepsize,
    orbiterror, ltte, return_roche_euler⟩

/-- `dynamics_bs` (nbody.py lines 499-621): calls photodynam (injected as
`pd`), then returns `xs = -1*d['x'].T * au_to_solrad` and likewise for
`ys, vxs, vys`, while `zs = d['z'].T * au_to_solrad` and
`vzs = d['vz'].T * au_to_solrad` keep their sign; with
`return_roche_euler` the instantaneous element block is added, reading the
per-orbit output at `shiftIdx` and computing the period and epoch of
periastron from Kepler's third law (`_compute_period` with `G = 1`,
`_compute_t0_perpass` with its default `t0 = 0.0`). -/
noncomputable def dynamics_bs (pd : PDArgs → PDResult)
    (times masses smas eccs incls per0s long_ans mean_anoms : List ℝ)
    (t0 vgamma stepsize orbiterror : ℝ) (ltte return_roche_euler : Bool) : DynOut :=
  let d := pd (photodynamArgs times masses smas eccs incls per0s long_ans mean_anoms
    t0 stepsize orbiterror ltte return_roche_euler)
  ⟨d.t,
    fun j i => -1 * d.x i j * au_to_solrad,
    fun j i => -1 * d.y i j * au_to_solrad,
    fun j i => d.z i j * au_to_solrad,
    fun j i => -1 * d.vx i j * au_to_solrad,
    fun j i => -1 * d.vy i j * au_to_solrad,
    fun j i => d.vz i j * au_to_solrad,
    if return_roche_euler then
      some
        ⟨fun _ _ => none, fun _ _ => none,
          fun oi ti => d.kepl_o ti (shiftIdx oi) + d.kepl_ma ti (shiftIdx oi) + Real.pi / 2,
          fun oi ti => d.kepl_ln ti (shiftIdx oi) + long_ans.getD (shiftIdx oi) 0,
          fun oi ti => d.kepl_in ti (shiftIdx oi) + Real.pi - incls.getD (shiftIdx oi) 0,
          fun oi ti =>
            Real.sqrt
              ((4 * Real.pi ^ 2 * (d.kepl_a ti (shiftIdx oi) * au_to_solrad / au_to_solrad) ^ 3) /
                ((masses.take (if oi = 0 then 2 else oi + 1)).sum * 1)),
          fun oi ti => d.kepl_a ti (shiftIdx oi) * au_to_solrad,
          fun oi ti => d.kepl_e ti (shiftIdx oi),
          fun oi ti => d.kepl_o ti (shiftIdx oi),
          fun oi ti => d.kepl_ln ti (shiftIdx oi),
          fun oi ti => d.kepl_in ti (shiftIdx oi),
          fun oi ti =>
            0 -
              d.kepl_ma ti (shiftIdx oi) *
                Real.sqrt
                  ((4 * Real.pi ^ 2 *
                      (d.kepl_a ti (shiftIdx oi) * au_to_solrad / au_to_solrad) ^ 3) /
                    ((masses.take (if oi = 0 then 2 else oi + 1)).sum * 1)) /
                (2 * Real.pi)⟩
    else none⟩

/-- The bundle values `dynamics_from_bundle_bs` reads (nbody.py lines
472-490): per-star masses, per-orbit elements, the system `vgamma`, `t0`
and the compute option `ltte`. -/
structure BsBundle where
  masses : List ℝ
  smas : List ℝ
  eccs : List ℝ
  incls : List ℝ
  per0s : List ℝ
  long_ans : List ℝ
  t0_perpasses : List ℝ
  periods : List ℝ
  mean_anoms : List ℝ
  vgamma : ℝ
  t0 : ℝ
  ltte : Bool

/-- The keyword arguments a caller may pass to `dynamics_from_bundle_bs`:
only `ltte` can override the compute parameter-set value; `stepsize` and
`orbiterror` are accepted but never read. -/
structure BsKwargs where
  stepsize : Option ℝ
  orbiterror : Option ℝ
  ltte : Option Bool

/-- `dynamics_from_bundle_bs` (nbody.py lines 440-495): hardcodes
`stepsize = 0.01` and `orbiterror = 1e-16` (lines 466-467), reads `ltte`
from the compute parameters with the keyword override, converts masses to
gravitational-parameter units, and calls `dynamics_bs`. -/
noncomputable def dynamics_from_bundle_bs (pd : PDArgs → PDResult) (b : BsBundle)
    (times : List ℝ) (return_roche_euler : Bool) (kwargs : BsKwargs) : DynOut :=
  dynamics_bs pd times (b.masses.map (fun m => m * G_AU_Msun_d)) b.smas b.eccs b.incls
    b.per0s b.long_ans b.mean_anoms b.t0 b.vgamma 0.01 1e-16 (kwargs.ltte.getD b.ltte)
    return_roche_euler

/-- C9: two calls to `dynamics_from_bundle_bs` that differ only in the
`stepsize` and/or `orbiterror` keyword arguments produce identical output:
the function uses the fixed constants `stepsize = 0.01` and
`orbiterror = 1e-16`, so those keyword arguments have no effect. -/
theorem c9_stepsize_orbiterror_ignored (pd : PDArgs → PDResult) (b : BsBundle)
    (times : List ℝ) (return_roche_euler : Bool) (kw1 kw2 : BsKwargs)
    (h : kw1.ltte = kw2.ltte) :
    dynamics_from_bundle_bs pd b times return_roche_euler kw1 =
      dynamics_from_bundle_bs pd b times return_roche_euler kw2 := by
  simp only [dynamics_from_bundle_bs, h]

/-- Witness for C9: concrete keyword sets differing in `stepsize` and
`orbiterror` (and agreeing on `ltte`) give equal outputs. -/
theorem c9_stepsize_orbiterror_witness :
    dynamics_from_bundle_bs (fun _ => ⟨fun _ => 0, fun _ _ => 0, fun _ _ => 0,
        fun _ _ => 0, fun _ _ => 0, fun _ _ => 0, fun _ _ => 0, fun _ _ => 0,
        fun _ _ => 0, fun _ _ => 0, fun _ _ => 0, fun _ _ => 0, fun _ _ => 0⟩)
        ⟨[1], [1], [0], [0], [0], [0], [0], [1], [0], 0, 0, false⟩ [0] false
        ⟨some 0.5, some 0.001, none⟩ =
      dynamics_from_bundle_bs (fun _ => ⟨fun _ => 0, fun _ _ => 0, fun _ _ => 0,
        fun _ _ => 0, fun _ _ => 0, fun _ _ => 0, fun _ _ => 0, fun _ _ => 0,
        fun _ _ => 0, fun _ _ => 0, fun _ _ => 0, fun _ _ => 0, fun _ _ => 0⟩)
        ⟨[1], [1], [0], [0], [0], [0], [0], [1], [0], 0, 0, false⟩ [0] false
        ⟨some 0.01, none, none⟩ :=
  c9_stepsize_orbiterror_ignored _ _ [0] false ⟨some 0.5, some 0.001, none⟩
    ⟨some 0.01, none, none⟩ rfl

/-- C10: every position/velocity series `dynamics_bs` returns is the
transposed photodynam output converted from AU to solar radii, with the
in-sky-plane components `x, y, vx, vy` negated and the line-of-sight
components `z, vz` kept with their sign. -/
theorem c10_sign_flip_and_unit_conversion (pd : PDArgs → PDResult)
    (times masses smas eccs incls per0s long_ans mean_anoms : List ℝ)
    (t0 vgamma stepsize orbiterror : ℝ) (ltte return_roche_euler : Bool) (j i : ℕ) :
    (dynamics_bs pd times masses smas eccs incls per0s long_ans mean_anoms t0 vgamma
          stepsize orbiterror ltte return_roche_euler).xs j i =
        -1 *
            (pd (photodynamArgs times masses smas eccs incls per0s long_ans mean_anoms
                t0 stepsize orbiterror ltte return_roche_euler)).x i j *
          au_to_solrad ∧
      (dynamics_bs pd times masses smas eccs incls per0s long_ans mean_anoms t0 vgamma
          stepsize orbiterror ltte return_roche_euler).ys j i =
        -1 *
            (pd (photodynamArgs times masses smas eccs incls per0s long_ans mean_anoms
                t0 stepsize orbiterror ltte return_roche_euler)).y i j *
          au_to_solrad ∧
      (dynamics_bs pd times masses smas eccs incls per0s long_ans mean_anoms t0 vgamma
          stepsize orbiterror ltte return_roche_euler).zs j i =
        (pd (photodynamArgs times masses smas eccs incls per0s long_ans mean_anoms
              t0 stepsize orbiterror ltte return_roche_euler)).z i j *
          au_to_solrad ∧
      (dynamics_bs pd times masses smas eccs incls per0s long_ans mean_anoms t0 vgamma
          stepsize orbiterror ltte return_roche_euler).vxs j i =
        -1 *
            (pd (photodynamArgs times masses smas eccs incls per0s long_ans mean_anoms
                t0 stepsize orbiterror ltte return_roche_euler)).vx i j *
          au_to_solrad ∧
      (dynamics_bs pd times masses smas eccs incls per0s long_ans mean_anoms t0 vgamma
          stepsize orbiterror ltte return_roche_euler).vys j i =
        -1 *
            (pd (photodynamArgs times masses smas eccs incls per0s long_ans mean_anoms
                t0 stepsize orbiterror ltte return_roche_euler)).vy i j *
          au_to_solrad ∧
      (dynamics_bs pd times masses smas eccs incls per0s long_ans mean_anoms t0 vgamma
          stepsize orbiterror ltte return_roche_euler).vzs j i =
        (pd (photodynamArgs times masses smas eccs incls per0s long_ans mean_anoms
              t0 stepsize orbiterror ltte return_roche_euler)).vz i j *
          au_to_solrad :=
  ⟨rfl, rfl, rfl, rfl, rfl, rfl⟩
